import Mathlib

/-!
Shallow embedding of the `jni-sp-util` crate (files `src/jni.rs`, `src/point.rs`,
`src/error.rs`, and the expansion of the `java_fn` attribute in `macro/src/lib.rs`).

Modelling conventions:
* Raw JNI handles (`jfieldID`, `jmethodID`, `GlobalRef`, `JClass`) are represented
  by `Nat` values; the host runtime (`JNIEnv`) is a record of lookup functions that
  return `Option Nat` (`none` models a failed host lookup, which the Rust code
  propagates with `?` as an `anyhow` error).
* The five process-wide `mini_moka` caches are modelled as association lists inside
  a single explicit `Caches` state that every cache-touching operation threads
  through.  Eviction under capacity pressure (capacity 30) is not modelled: every
  scenario below touches at most two keys.
* Host calls performed by an operation are recorded in a trace (`List HostOp`)
  returned alongside the result, so that "makes zero / exactly one host call"
  is a statement about the trace.
* Rust `Result<T>` (from `anyhow`) is `Except String T`.
-/

namespace SpUtil

/-- Rust `throw` from `src/error.rs`: `Err(anyhow!("{}", info))`. -/
def throw {α : Type} (info : String) : Except String α := Except.error info

/-- Embeds the Rust expression `sig.replace(".", "/")`: the pattern is a single
character, so the replacement is a per-character map. -/
def dotSlash (s : String) : String :=
  String.mk (s.data.map (fun c => if c = '.' then '/' else c))

/-- Cache keys (`ClassKey`, `FieldKey`, ... are all `i32` aliases in the source). -/
abbrev Key := Int

/-- A resolved class reference handle (models `JClass` / the object a `GlobalRef` wraps). -/
abbrev JClass := Nat

/-- The `JavaType` / signature argument passed through to the unchecked host call. -/
abbrev JavaType := String

/-- Lookup in an association-list cache (models `Cache::get`). -/
def cacheGet (m : List (Key × Nat)) (k : Key) : Option Nat :=
  (m.find? (fun p => p.1 == k)).map Prod.snd

/-- Insert into an association-list cache, overwriting any entry for the same key
(models `Cache::insert`). -/
def cacheInsert (m : List (Key × Nat)) (k : Key) (v : Nat) : List (Key × Nat) :=
  (k, v) :: m.filter (fun p => p.1 != k)

/-- Models `Cache::contains_key`. -/
def containsKey (m : List (Key × Nat)) (k : Key) : Bool :=
  (cacheGet m k).isSome

/-- The five process-wide handle caches (`CLASS_CACHE`, `FIELD_CACHE`,
`STATIC_FIELD_CACHE`, `METHOD_CACHE`, `STATIC_METHOD_CACHE`), gathered into one
explicit state record. -/
structure Caches where
  classCache : List (Key × Nat)
  fieldCache : List (Key × Nat)
  staticFieldCache : List (Key × Nat)
  methodCache : List (Key × Nat)
  staticMethodCache : List (Key × Nat)
deriving DecidableEq, Repr

/-- The caches at process start: all empty. -/
def Caches.empty : Caches := ⟨[], [], [], [], []⟩

/-- A host (JNI) call made by an operation, for the call trace. -/
inductive HostOp where
  | getFieldId (cls : JClass) (name sig : String)
  | getStaticFieldId (cls : JClass) (name sig : String)
  | getMethodId (cls : JClass) (name sig : String)
  | getStaticMethodId (cls : JClass) (name sig : String)
  | findClass (sig : String)
  | newGlobalRef (cls : JClass)
deriving DecidableEq, Repr

/-- Whether a host call is a *resolution* call (a name/signature or class-path
lookup).  The only non-resolution call is `new_global_ref`, the promotion of an
already-resolved class reference to a durable one. -/
def isResolutionOp : HostOp → Bool
  | .newGlobalRef _ => false
  | _ => true

/-- The host runtime: each resolution primitive of `JNIEnv` used by the crate,
as a partial function (`none` = the host lookup fails). -/
structure JNIEnv where
  getFieldId : JClass → String → String → Option Nat
  getStaticFieldId : JClass → String → String → Option Nat
  getMethodId : JClass → String → String → Option Nat
  getStaticMethodId : JClass → String → String → Option Nat
  findClass : String → Option JClass
  newGlobalRef : JClass → Option Nat
  getStaticFieldUnchecked : JClass → Nat → JavaType → Option Nat

/-- Embeds `SpClass` (`src/jni.rs`): cache key, optional fully qualified path,
optional resolved global class reference. -/
structure SpClass where
  cache : Key
  class_full_path : Option String
  jni_class_ref : Option Nat
deriving DecidableEq, Repr

/-- Embeds the `SpType` enum (`src/jni.rs`).  The Rust variant `Sort` is spelled
`Sort'` because `Sort` is reserved in Lean. -/
inductive SpType where
  | Byte
  | Char
  | Double
  | Float
  | Int
  | Long
  | Sort'
  | Boolean
  | Void
  | Class (c : SpClass)
  | Array (t : SpType)
deriving DecidableEq, Repr

/-- Embeds `impl Display for SpType` (`src/jni.rs` lines 311-334), letter for
letter — including the `Long` arm, which writes `"L"` in the source. -/
def SpType.toString : SpType → String
  | .Byte => "B"
  | .Char => "C"
  | .Double => "D"
  | .Float => "F"
  | .Int => "I"
  | .Long => "L"
  | .Sort' => "S"
  | .Boolean => "Z"
  | .Void => "V"
  | .Class c => "L" ++ (c.class_full_path.getD "java/lang/Object") ++ ";"
  | .Array t => "[" ++ t.toString

/-- Embeds `SpType::get_str_len` (`src/jni.rs` lines 289-303); Rust `str::len`
is the UTF-8 byte length. -/
def SpType.get_str_len : SpType → Nat
  | .Class c => (c.class_full_path.getD "java/lang/Object").utf8ByteSize + 2
  | .Array t => t.get_str_len + 1
  | _ => 1

/-- Embeds `SpClass::from_sig`: key fixed at `-1`, path with dots replaced. -/
def SpClass.from_sig (sig : String) : SpClass :=
  { cache := -1, class_full_path := some (dotSlash sig), jni_class_ref := none }

/-- Embeds `SpClass::cache` (the rehydration constructor; named `cache'` here
because `cache` is the structure field). -/
def SpClass.cache' (key : Key) : SpClass :=
  { cache := key, class_full_path := none, jni_class_ref := none }

/-- Embeds `SpClass::new`. -/
def SpClass.new (key : Key) (sig : String) : SpClass :=
  { cache := key, class_full_path := some (dotSlash sig), jni_class_ref := none }

/-- Embeds `SpType::new_class`. -/
def SpType.new_class (cls : String) : SpType := .Class (SpClass.from_sig cls)

/-- Embeds `SpClass::contains_cache`. -/
def SpClass.contains_cache (s : Caches) (key : Key) : Bool := containsKey s.classCache key

/-- Embeds `SpClass::init` (`src/jni.rs` lines 372-399).  Returns the result, the
updated receiver (`init` takes `&mut self`), the updated caches, and the host-call
trace.  The second source-level `else if self.jni_class_ref.is_some()` branch is
unreachable (the same test already returned at the top) and is dropped. -/
def SpClass.init (c : SpClass) (env : JNIEnv) (s : Caches) :
    Except String Unit × SpClass × Caches × List HostOp :=
  if c.jni_class_ref.isSome then (.ok (), c, s, [])
  else if c.cache < 0 ∧ c.class_full_path.isNone then (throw "no class", c, s, [])
  else
    match cacheGet s.classCache c.cache with
    | some global_ref => (.ok (), { c with jni_class_ref := some global_ref }, s, [])
    | none =>
      match c.class_full_path with
      | none => (throw "no class cache", c, s, [])
      | some sig =>
        match env.findClass sig with
        | none => (throw "host error", c, s, [.findClass sig])
        | some cls =>
          match env.newGlobalRef cls with
          | none => (throw "host error", c, s, [.findClass sig, .newGlobalRef cls])
          | some raw =>
            (.ok (), { c with jni_class_ref := some raw },
             { s with classCache := cacheInsert s.classCache c.cache raw },
             [.findClass sig, .newGlobalRef cls])

/-- Embeds `SpStaticField` (`src/jni.rs`). -/
structure SpStaticField where
  cache : Key
  name : Option String
  ret : Option String
deriving DecidableEq, Repr

/-- Embeds `SpStaticField::contains_cache`. -/
def SpStaticField.contains_cache (s : Caches) (key : Key) : Bool :=
  containsKey s.staticFieldCache key

/-- Embeds `SpStaticField::cache` (rehydration constructor). -/
def SpStaticField.cache' (key : Key) : SpStaticField :=
  { cache := key, name := none, ret := none }

/-- Embeds `SpStaticField::new`. -/
def SpStaticField.new (key : Key) (name : String) (return_type : SpType) : SpStaticField :=
  { cache := key, name := some name, ret := some return_type.toString }

/-- Embeds `SpStaticField::init` (`src/jni.rs` lines 55-65): cache-hit fast path,
then host lookup by (name, signature), publishing the raw id under the key. -/
def SpStaticField.init (f : SpStaticField) (env : JNIEnv) (jclass : JClass) (s : Caches) :
    Except String Unit × Caches × List HostOp :=
  if containsKey s.staticFieldCache f.cache then (.ok (), s, [])
  else
    match f.name, f.ret with
    | some name, some sig =>
      match env.getStaticFieldId jclass name sig with
      | some raw_id =>
        (.ok (), { s with staticFieldCache := cacheInsert s.staticFieldCache f.cache raw_id },
         [.getStaticFieldId jclass name sig])
      | none => (throw "host error", s, [.getStaticFieldId jclass name sig])
    | _, _ => (throw "init static field error: name or return type is null", s, [])

/-- Embeds `SpStaticField::call` (`src/jni.rs` lines 67-79).  NOTE: the source
consults `FIELD_CACHE` here (line 73), not `STATIC_FIELD_CACHE`; the embedding
reproduces that. -/
def SpStaticField.call (f : SpStaticField) (env : JNIEnv) (cls : JClass) (ret : JavaType)
    (s : Caches) : Except String Nat :=
  match cacheGet s.fieldCache f.cache with
  | some id =>
    match env.getStaticFieldUnchecked cls id ret with
    | some v => .ok v
    | none => throw "host error"
  | none => throw "no method cache"

/-- Embeds `SpField` (`src/jni.rs`). -/
structure SpField where
  cache : Key
  name : Option String
  ret : Option String
deriving DecidableEq, Repr

/-- Embeds `SpField::contains_cache`. -/
def SpField.contains_cache (s : Caches) (key : Key) : Bool :=
  containsKey s.fieldCache key

/-- Embeds `SpField::cache` (rehydration constructor). -/
def SpField.cache' (key : Key) : SpField :=
  { cache := key, name := none, ret := none }

/-- Embeds `SpField::new`. -/
def SpField.new (key : Key) (name : String) (return_type : SpType) : SpField :=
  { cache := key, name := some name, ret := some return_type.toString }

/-- Embeds `SpField::init` (`src/jni.rs` lines 109-119). -/
def SpField.init (f : SpField) (env : JNIEnv) (jclass : JClass) (s : Caches) :
    Except String Unit × Caches × List HostOp :=
  if containsKey s.fieldCache f.cache then (.ok (), s, [])
  else
    match f.name, f.ret with
    | some name, some sig =>
      match env.getFieldId jclass name sig with
      | some raw_id =>
        (.ok (), { s with fieldCache := cacheInsert s.fieldCache f.cache raw_id },
         [.getFieldId jclass name sig])
      | none => (throw "host error", s, [.getFieldId jclass name sig])
    | _, _ => (throw "init field error: name or return type is null", s, [])

/-- Signature string built by the loop in `SpMethod::new` / `SpStaticMethod::new`:
push `'('`, push the encoding of each argument, push `')'`, push the return encoding. -/
def buildSig (return_type : SpType) (args : List SpType) : String :=
  (args.foldl (fun acc t => acc ++ t.toString) "(") ++ ")" ++ return_type.toString

/-- Pre-computed buffer capacity `all_len` from `SpMethod::new` /
`SpStaticMethod::new`: `return_type.get_str_len() + 2` plus the `get_str_len` of each argument, accumulated by the loop. -/
def sigCapacity (return_type : SpType) (args : List SpType) : Nat :=
  args.foldl (fun acc t => acc + t.get_str_len) (return_type.get_str_len + 2)

/-- Embeds `SpMethod` (`src/jni.rs`). -/
structure SpMethod where
  cache : Key
  name : Option String
  sig : Option String
deriving DecidableEq, Repr

/-- Embeds `SpMethod::contains_cache`. -/
def SpMethod.contains_cache (s : Caches) (key : Key) : Bool :=
  containsKey s.methodCache key

/-- Embeds `SpMethod::cache` (rehydration constructor). -/
def SpMethod.cache' (key : Key) : SpMethod :=
  { cache := key, name := none, sig := none }

/-- Embeds `SpMethod::new` (`src/jni.rs` lines 221-239). -/
def SpMethod.new (key : Key) (name : String) (return_type : SpType) (args : List SpType) :
    SpMethod :=
  { cache := key, name := some name, sig := some (buildSig return_type args) }

/-- Embeds `SpMethod::init` (`src/jni.rs` lines 241-251).  The error string is
taken verbatim from the source (a copy of the static-method message). -/
def SpMethod.init (m : SpMethod) (env : JNIEnv) (jclass : JClass) (s : Caches) :
    Except String Unit × Caches × List HostOp :=
  if containsKey s.methodCache m.cache then (.ok (), s, [])
  else
    match m.name, m.sig with
    | some name, some sig =>
      match env.getMethodId jclass name sig with
      | some raw_id =>
        (.ok (), { s with methodCache := cacheInsert s.methodCache m.cache raw_id },
         [.getMethodId jclass name sig])
      | none => (throw "host error", s, [.getMethodId jclass name sig])
    | _, _ => (throw "init static method error: name or sig is null", s, [])

/-- Embeds `SpStaticMethod` (`src/jni.rs`). -/
structure SpStaticMethod where
  cache : Key
  name : Option String
  sig : Option String
deriving DecidableEq, Repr

/-- Embeds `SpStaticMethod::contains_cache`. -/
def SpStaticMethod.contains_cache (s : Caches) (key : Key) : Bool :=
  containsKey s.staticMethodCache key

/-- Embeds `SpStaticMethod::cache` (rehydration constructor). -/
def SpStaticMethod.cache' (key : Key) : SpStaticMethod :=
  { cache := key, name := none, sig := none }

/-- Embeds `SpStaticMethod::new` (`src/jni.rs` lines 155-173). -/
def SpStaticMethod.new (key : Key) (name : String) (return_type : SpType)
    (args : List SpType) : SpStaticMethod :=
  { cache := key, name := some name, sig := some (buildSig return_type args) }

/-- Embeds `SpStaticMethod::init` (`src/jni.rs` lines 175-185). -/
def SpStaticMethod.init (m : SpStaticMethod) (env : JNIEnv) (jclass : JClass) (s : Caches) :
    Except String Unit × Caches × List HostOp :=
  if containsKey s.staticMethodCache m.cache then (.ok (), s, [])
  else
    match m.name, m.sig with
    | some name, some sig =>
      match env.getStaticMethodId jclass name sig with
      | some raw_id =>
        (.ok (), { s with staticMethodCache := cacheInsert s.staticMethodCache m.cache raw_id },
         [.getStaticMethodId jclass name sig])
      | none => (throw "host error", s, [.getStaticMethodId jclass name sig])
    | _, _ => (throw "init static method error: name or sig is null", s, [])

/-!
Opaque pointer manager (`src/point.rs`).  The native heap is modelled explicitly:
an allocation counter (addresses start at 1, so `Box::into_raw` never yields the
null address) and a list of live cells.  A dereference of a non-null address
whose cell has been reclaimed is what the Rust code cannot detect (its only
guard is the null check in `check_ptr`): it is represented by the `Deref.dangling`
outcome — the operation still *returns successfully* (as `ptr::as_mut` does for
any non-null pointer), but the reference it hands out is invalid
(use-after-free, undefined behaviour at the Rust level).
-/

/-- The integer handle type (`pub type Point = usize`). -/
abbrev Point := Nat

/-- The native heap: next fresh address and the live cells. -/
structure Heap (V : Type) where
  next : Nat
  mem : List (Nat × V)
deriving DecidableEq, Repr

/-- The heap at process start. -/
def Heap.empty (V : Type) : Heap V := ⟨1, []⟩

/-- Address lookup among the live cells. -/
def heapLookup {V : Type} (h : Heap V) (p : Nat) : Option V :=
  (h.mem.find? (fun q => q.1 == p)).map Prod.snd

/-- Assignment through a mutable reference obtained from `to_status_use`
(the caller-side `*r = w`). -/
def Heap.write {V : Type} (h : Heap V) (p : Nat) (w : V) : Heap V :=
  { h with mem := h.mem.map (fun q => if q.1 == p then (p, w) else q) }

/-- Deallocation of a cell (dropping the `Box` recovered by `Box::from_raw`). -/
def Heap.free {V : Type} (h : Heap V) (p : Nat) : Heap V :=
  { h with mem := h.mem.filter (fun q => q.1 != p) }

/-- Outcome of dereferencing a non-null handle: the live value, or an invalid
(reclaimed) reference the code cannot distinguish from a live one. -/
inductive Deref (V : Type) where
  | found (v : V)
  | dangling
deriving DecidableEq, Repr

/-- Embeds `to_ptr` (`src/point.rs` lines 17-20): `Box::into_raw(Box::new(s))`. -/
def to_ptr {V : Type} (v : V) (h : Heap V) : Point × Heap V :=
  (h.next, ⟨h.next + 1, (h.next, v) :: h.mem⟩)

/-- Embeds `check_ptr` (`src/point.rs` lines 22-28): fails iff the address is null. -/
def check_ptr (p : Point) : Except String Unit :=
  if p = 0 then throw "point is null or not" else .ok ()

/-- Embeds `to_status_use` (`src/point.rs` lines 30-39).  After `check_ptr`, the
`as_mut().ok_or_else(...)` branch can only fail for a null pointer, which was
already rejected, so a non-null handle always yields a reference — a live one,
or `dangling` for a reclaimed cell. -/
def to_status_use {V : Type} (p : Point) (h : Heap V) : Except String (Deref V) :=
  match check_ptr p with
  | .error e => .error e
  | .ok _ =>
    match heapLookup h p with
    | some v => .ok (.found v)
    | none => .ok .dangling

/-- Embeds `to_status` (`src/point.rs` lines 60-71): reclaims the cell via
`Box::from_raw`.  As in `to_status_use`, the `as_ref` null test after `check_ptr`
never fires; a reclaimed cell yields `dangling` without failing. -/
def to_status {V : Type} (p : Point) (h : Heap V) : Except String (Deref V × Heap V) :=
  match check_ptr p with
  | .error e => .error e
  | .ok _ =>
    match heapLookup h p with
    | some v => .ok (.found v, h.free p)
    | none => .ok (.dangling, h)

/-- How a call into native code can end: an ordinary return, a process abort,
or undefined behaviour (a dangling dereference handed to library code). -/
inductive RunResult (α : Type) where
  | ret (a : α)
  | abort
  | dangling
deriving DecidableEq, Repr

/-- Embeds `to_status_replace` (`src/point.rs` lines 41-58).  The transform is a
function together with its termination behaviour: `none` models a panicking
transform.  `replace_with::replace_with_or_abort` aborts the process when the
closure panics (its documented contract), so the surrounding `catch_unwind`
never observes that panic and the `Err => throw("replace status error")` arm is
unreachable for a transform panic. -/
def to_status_replace {V : Type} (p : Point) (action : V → Option V) (h : Heap V) :
    RunResult (Except String Unit × Heap V) :=
  match check_ptr p with
  | .error e => .ret (.error e, h)
  | .ok _ =>
    match heapLookup h p with
    | none => .dangling
    | some v =>
      match action v with
      | some v2 => .ret (.ok (), h.write p v2)
      | none => .abort

/-!
Invocation boundary: the runtime behaviour of the wrapper emitted by the
`java_fn` attribute (`macro/src/lib.rs` lines 53-72).  The generated code calls
the user body under `catch_unwind`; on panic it extracts a message from the
payload (`&str`, then `String`, then a fixed fallback), throws a new host
exception of class `"Ljava/lang/Exception;"` with that message, and returns
`Default::default()` for the declared return type.
-/

/-- A panic payload: a string slice, an owned string, or anything else. -/
inductive PanicPayload where
  | str (s : String)
  | string (s : String)
  | other
deriving DecidableEq, Repr

/-- Message extraction from the panic payload, in the downcast order of the source. -/
def panicMsg : PanicPayload → String
  | .str s => s
  | .string s => s
  | .other => "Unknown panic payload type"

/-- How the user body ends: a normal value or a panic with some payload. -/
inductive BodyOutcome (α : Type) where
  | ok (r : α)
  | panics (p : PanicPayload)
deriving DecidableEq, Repr

/-- What the exported entry point returns: the ABI value, plus the host
exception (class, message) raised via `throw_new`, if any. -/
structure BoundaryResult (α : Type) where
  ret : α
  thrownException : Option (String × String)
deriving DecidableEq, Repr

/-- Embeds the panic layer of the `java_fn` wrapper: `dflt` is
`<ReturnTy as Default>::default()`. -/
def java_fn_wrap {α : Type} (body : BodyOutcome α) (dflt : α) : BoundaryResult α :=
  match body with
  | .ok r => { ret := r, thrownException := none }
  | .panics p =>
    { ret := dflt, thrownException := some ("Ljava/lang/Exception;", panicMsg p) }

/-- Concatenation of the encodings of a list of type descriptors, in order
(the spec-side description of the argument part of a method signature). -/
def encodedArgs : List SpType → String
  | [] => ""
  | t :: ts => t.toString ++ encodedArgs ts

/-- A concrete host environment in which every lookup succeeds, with
distinguishable handles per class path. -/
def envResolve : JNIEnv :=
  { getFieldId := fun _ _ _ => some 5
    getStaticFieldId := fun _ _ _ => some 7
    getMethodId := fun _ _ _ => some 9
    getStaticMethodId := fun _ _ _ => some 11
    findClass := fun sig => if sig = "a/A" then some 10 else some 20
    newGlobalRef := fun cls => some (cls + 100)
    getStaticFieldUnchecked := fun _ _ _ => some 99 }

/-- A concrete host environment in which every lookup fails. -/
def envFail : JNIEnv :=
  { getFieldId := fun _ _ _ => none
    getStaticFieldId := fun _ _ _ => none
    getMethodId := fun _ _ _ => none
    getStaticMethodId := fun _ _ _ => none
    findClass := fun _ => none
    newGlobalRef := fun _ => none
    getStaticFieldUnchecked := fun _ _ _ => none }

/-! Helper lemmas. -/

theorem containsKey_cacheInsert (m : List (Key × Nat)) (k : Key) (v : Nat) :
    containsKey (cacheInsert m k v) k = true := by
  simp [containsKey, cacheInsert, cacheGet, List.find?]

theorem utf8_go_append (a b : List Char) :
    String.utf8ByteSize.go (a ++ b) = String.utf8ByteSize.go a + String.utf8ByteSize.go b := by
  induction a with
  | nil => simp [String.utf8ByteSize.go]
  | cons c cs ih => simp [String.utf8ByteSize.go, ih]; omega

theorem utf8Len_append (s t : String) :
    (s ++ t).utf8ByteSize = s.utf8ByteSize + t.utf8ByteSize := by
  cases s with
  | mk a =>
    cases t with
    | mk b =>
      show String.utf8ByteSize ⟨a ++ b⟩ = _
      simp [String.utf8ByteSize, utf8_go_append]

theorem get_str_len_toString (t : SpType) :
    t.get_str_len = t.toString.utf8ByteSize := by
  induction t with
  | Class c =>
    have h1 : ("L" : String).utf8ByteSize = 1 := rfl
    have h2 : (";" : String).utf8ByteSize = 1 := rfl
    simp [SpType.get_str_len, SpType.toString, utf8Len_append, h1, h2]
    omega
  | Array t ih =>
    have h1 : ("[" : String).utf8ByteSize = 1 := rfl
    simp [SpType.get_str_len, SpType.toString, utf8Len_append, h1, ih]
    omega
  | _ => rfl

theorem foldl_toString_eq (args : List SpType) (acc : String) :
    args.foldl (fun b t => b ++ t.toString) acc = acc ++ encodedArgs args := by
  induction args generalizing acc with
  | nil => simp [encodedArgs]
  | cons a l ih => simp [encodedArgs, ih, String.append_assoc]

theorem foldl_len_eq (args : List SpType) (n : Nat) :
    args.foldl (fun acc t => acc + t.get_str_len) n
      = n + (encodedArgs args).utf8ByteSize := by
  induction args generalizing n with
  | nil =>
    show n = n + ("" : String).utf8ByteSize
    rfl
  | cons a l ih =>
    rw [List.foldl_cons, ih]
    show _ = n + (a.toString ++ encodedArgs l).utf8ByteSize
    rw [utf8Len_append, get_str_len_toString a]
    omega

/-! Claim theorems. -/

/-- C2: the Signature Encoder is claimed to emit the letter fixed by the external grammar for each primitive kind, in particular `"J"` for `Long`.  Evaluating the
source `Display` implementation: the `Long` arm emits `"L"` (not `"J"`, and
colliding with the object-descriptor prefix); all other primitive arms match
the grammar. -/
theorem long_descriptor_encodes_as_L :
    SpType.toString SpType.Long = "L" ∧ SpType.toString SpType.Long ≠ "J" ∧
    SpType.toString SpType.Byte = "B" ∧ SpType.toString SpType.Char = "C" ∧
    SpType.toString SpType.Double = "D" ∧ SpType.toString SpType.Float = "F" ∧
    SpType.toString SpType.Int = "I" ∧ SpType.toString SpType.Sort' = "S" ∧
    SpType.toString SpType.Boolean = "Z" ∧ SpType.toString SpType.Void = "V" :=
  ⟨rfl, by decide, rfl, rfl, rfl, rfl, rfl, rfl, rfl, rfl⟩

/-- C1: after a successful `SpStaticField::init` for key 0 (which publishes the
raw handle into the static-field cache), `SpStaticField::call` with the same key
still fails with "no method cache": the `call` in the source consults `FIELD_CACHE`
(the instance-field cache), not `STATIC_FIELD_CACHE`. -/
theorem static_field_call_cache_miss_after_init :
    SpStaticField.init (SpStaticField.new 0 "f" SpType.Int) envResolve 1 Caches.empty
      = (.ok (), ⟨[], [], [(0, 7)], [], []⟩, [.getStaticFieldId 1 "f" "I"]) ∧
    SpStaticField.contains_cache ⟨[], [], [(0, 7)], [], []⟩ 0 = true ∧
    SpStaticField.call (SpStaticField.new 0 "f" SpType.Int) envResolve 1 "I"
      ⟨[], [], [(0, 7)], [], []⟩ = .error "no method cache" :=
  ⟨rfl, rfl, rfl⟩

/-- C3: a class resolver with the negative key `-1` (built by
`SpClass::from_sig`) is claimed never to read from or insert into the class
handle cache.  Evaluating the source: initializing `from_sig "a.A"` inserts the
global reference under key `-1`, and a subsequent `init` of the *different*
class `from_sig "b.B"` hits that entry, returning the reference of class `a/A` with
no host call at all. -/
theorem negative_key_class_init_uses_cache :
    SpClass.init (SpClass.from_sig "a.A") envResolve Caches.empty
      = (.ok (), ⟨-1, some "a/A", some 110⟩, ⟨[(-1, 110)], [], [], [], []⟩,
         [.findClass "a/A", .newGlobalRef 10]) ∧
    containsKey (⟨[(-1, 110)], [], [], [], []⟩ : Caches).classCache (-1) = true ∧
    SpClass.init (SpClass.from_sig "b.B") envResolve ⟨[(-1, 110)], [], [], [], []⟩
      = (.ok (), ⟨-1, some "b/B", some 110⟩, ⟨[(-1, 110)], [], [], [], []⟩, []) :=
  ⟨rfl, rfl, rfl⟩

/-- C7: the invocation boundary converts a panic with string payload `"boom"`
(slice or owned) into a host exception with message exactly `"boom"` plus the
default value of the declared return type, and any other payload into the fixed
message "Unknown panic payload type". -/
theorem boundary_panic_payload_message {α : Type} (dflt : α) :
    java_fn_wrap (.panics (.str "boom")) dflt
      = { ret := dflt, thrownException := some ("Ljava/lang/Exception;", "boom") } ∧
    java_fn_wrap (.panics (.string "boom")) dflt
      = { ret := dflt, thrownException := some ("Ljava/lang/Exception;", "boom") } ∧
    java_fn_wrap (.panics .other) dflt
      = { ret := dflt,
          thrownException := some ("Ljava/lang/Exception;", "Unknown panic payload type") } :=
  ⟨rfl, rfl, rfl⟩

/-- C9: the method / static-method constructor builds the signature as `(`,
the argument encodings in order, `)`, then the return encoding; and the
pre-computed capacity (`2` plus `get_str_len` of the return and all argument
types) equals the byte length of the built string — equivalently, `get_str_len t`
is the byte length of the encoding of every descriptor `t`. -/
theorem method_signature_shape_and_capacity (key : Key) (name : String)
    (return_type : SpType) (args : List SpType) :
    (SpMethod.new key name return_type args).sig
      = some (("(" ++ encodedArgs args) ++ ")" ++ return_type.toString) ∧
    (SpStaticMethod.new key name return_type args).sig
      = some (("(" ++ encodedArgs args) ++ ")" ++ return_type.toString) ∧
    sigCapacity return_type args
      = (("(" ++ encodedArgs args) ++ ")" ++ return_type.toString).utf8ByteSize ∧
    return_type.get_str_len = return_type.toString.utf8ByteSize := by
  have h1 : ("(" : String).utf8ByteSize = 1 := rfl
  have h2 : (")" : String).utf8ByteSize = 1 := rfl
  have hshape : buildSig return_type args
      = ("(" ++ encodedArgs args) ++ ")" ++ return_type.toString := by
    simp only [buildSig]
    rw [foldl_toString_eq]
  refine ⟨?_, ?_, ?_, get_str_len_toString return_type⟩
  · show some (buildSig return_type args) = _
    rw [hshape]
  · show some (buildSig return_type args) = _
    rw [hshape]
  · have hc : sigCapacity return_type args
        = return_type.get_str_len + 2 + (encodedArgs args).utf8ByteSize := by
      simp only [sigCapacity]
      rw [foldl_len_eq]
    rw [hc, utf8Len_append, utf8Len_append, utf8Len_append, h1, h2,
        get_str_len_toString]
    omega

/-- C10: a resolver rehydrated from a key alone (no name, no signature, no
path) whose key is not in the cache fails `init` locally with no host call and
no cache insertion, for each of the five resolver kinds: the member resolvers
with the fixed "name or … is null" error, the class resolver with "no class"
(negative key, rejected before the cache is consulted) or "no class cache"
(non-negative key, cache miss with no path to resolve). -/
theorem rehydrated_resolver_init_fails_on_cache_miss (key : Key) (env : JNIEnv)
    (cls : JClass) (s : Caches)
    (hf : containsKey s.fieldCache key = false)
    (hsf : containsKey s.staticFieldCache key = false)
    (hm : containsKey s.methodCache key = false)
    (hsm : containsKey s.staticMethodCache key = false)
    (hcl : containsKey s.classCache key = false) :
    SpField.init (SpField.cache' key) env cls s
      = (.error "init field error: name or return type is null", s, []) ∧
    SpStaticField.init (SpStaticField.cache' key) env cls s
      = (.error "init static field error: name or return type is null", s, []) ∧
    SpMethod.init (SpMethod.cache' key) env cls s
      = (.error "init static method error: name or sig is null", s, []) ∧
    SpStaticMethod.init (SpStaticMethod.cache' key) env cls s
      = (.error "init static method error: name or sig is null", s, []) ∧
    SpClass.init (SpClass.cache' key) env s
      = (.error (if key < 0 then "no class" else "no class cache"),
         SpClass.cache' key, s, []) := by
  refine ⟨?_, ?_, ?_, ?_, ?_⟩
  · simp [SpField.init, SpField.cache', hf, throw]
  · simp [SpStaticField.init, SpStaticField.cache', hsf, throw]
  · simp [SpMethod.init, SpMethod.cache', hm, throw]
  · simp [SpStaticMethod.init, SpStaticMethod.cache', hsm, throw]
  · have hg : cacheGet s.classCache key = none := by
      rcases hg : cacheGet s.classCache key with _ | g
      · rfl
      · simp [containsKey, hg] at hcl
    by_cases hneg : key < 0
    · simp [SpClass.init, SpClass.cache', hneg, throw]
    · simp [SpClass.init, SpClass.cache', hneg, hg, throw]

/-- C10 witness: key `0` against the empty caches, for the field and class
kinds. -/
theorem rehydrated_resolver_init_fails_on_cache_miss_witness :
    SpField.init (SpField.cache' 0) envFail 1 Caches.empty
      = (.error "init field error: name or return type is null", Caches.empty, []) ∧
    SpClass.init (SpClass.cache' 0) envFail Caches.empty
      = (.error (if (0 : Key) < 0 then "no class" else "no class cache"),
         SpClass.cache' 0, Caches.empty, []) :=
  ⟨(rehydrated_resolver_init_fails_on_cache_miss 0 envFail 1 Caches.empty
      rfl rfl rfl rfl rfl).1,
   (rehydrated_resolver_init_fails_on_cache_miss 0 envFail 1 Caches.empty
      rfl rfl rfl rfl rfl).2.2.2.2⟩

/-- C5: on a non-null handle whose cell holds `v`, a transform that panics
(`action v = none`) makes `to_status_replace` abort the process
(`replace_with_or_abort`); it does not return, neither success nor error. -/
theorem replace_transform_panic_aborts {V : Type} (p : Point) (h : Heap V)
    (action : V → Option V) (v : V) (hp : p ≠ 0) (hv : heapLookup h p = some v)
    (ha : action v = none) :
    to_status_replace p action h = .abort ∧
    ∀ r, to_status_replace p action h ≠ .ret r := by
  have habort : to_status_replace p action h = .abort := by
    simp [to_status_replace, check_ptr, hp, hv, ha]
  refine ⟨habort, fun r hr => ?_⟩
  rw [habort] at hr
  cases hr

/-- C5 witness: the handle `1` holding `5`, with a panicking transform. -/
theorem replace_transform_panic_aborts_witness :
    to_status_replace 1 (fun _ => (none : Option Nat)) ⟨2, [(1, 5)]⟩ = RunResult.abort :=
  (replace_transform_panic_aborts 1 ⟨2, [(1, 5)]⟩ (fun _ => none) 5
    (by decide) rfl rfl).1

/-- C4 counterexample: `box(42)` at the empty heap yields handle `1`; `take(1)`
succeeds and reclaims the cell; but the claimed subsequent NullHandle failure
does not happen — the handle is still the non-null integer `1`, the null check
passes, and both `borrow_mut(1)` and `take(1)` return successfully with an
invalid (use-after-free) reference instead of failing. -/
theorem take_then_reuse_does_not_fail :
    to_ptr (42 : Nat) (Heap.empty Nat) = (1, ⟨2, [(1, 42)]⟩) ∧
    to_status (V := Nat) 1 ⟨2, [(1, 42)]⟩ = .ok (.found 42, ⟨2, []⟩) ∧
    to_status_use (V := Nat) 1 ⟨2, []⟩ = .ok .dangling ∧
    to_status (V := Nat) 1 ⟨2, []⟩ = .ok (.dangling, ⟨2, []⟩) :=
  ⟨rfl, rfl, rfl, rfl⟩

theorem map_overwrite_of_find?_none {V : Type} (w : V) (p : Nat) (l : List (Nat × V))
    (h : l.find? (fun q => q.1 == p) = none) :
    (l.map fun q => if q.1 == p then (p, w) else q) = l := by
  induction l with
  | nil => rfl
  | cons a t ih =>
    simp only [List.find?_cons] at h
    cases hq : (a.1 == p) with
    | true => simp [hq] at h
    | false =>
      simp only [hq] at h
      rw [List.map_cons, if_neg (by simp [hq]), ih h]

theorem filter_ne_of_find?_none {V : Type} (p : Nat) (l : List (Nat × V))
    (h : l.find? (fun q => q.1 == p) = none) :
    l.filter (fun q => q.1 != p) = l := by
  induction l with
  | nil => rfl
  | cons a t ih =>
    simp only [List.find?_cons] at h
    cases hq : (a.1 == p) with
    | true => simp [hq] at h
    | false =>
      simp only [hq] at h
      simp [List.filter_cons, hq, ih h]
      intro hEq
      rw [hEq] at hq
      simp at hq

/-- C4 amended: `box(v)` yields a non-null handle under which `borrow_mut`
sees `v`; after writing `w` through the borrow, `take` returns `w` and frees
the cell.  But further `borrow_mut`/`take` on the same handle do NOT fail with
a NullHandle error: the integer is still non-null, so the only guard (the null
check) passes and both return successfully with an invalid use-after-free
reference.  NullHandle is raised only for the handle value `0`. -/
theorem opaque_pointer_round_trip_amended {V : Type} (v w : V) (h0 : Heap V)
    (hpos : 0 < h0.next) (hfresh : heapLookup h0 h0.next = none) :
    (to_ptr v h0).1 ≠ 0 ∧
    to_status_use (to_ptr v h0).1 (to_ptr v h0).2 = .ok (.found v) ∧
    to_status (to_ptr v h0).1 ((to_ptr v h0).2.write (to_ptr v h0).1 w)
      = .ok (.found w, ⟨h0.next + 1, h0.mem⟩) ∧
    to_status_use (to_ptr v h0).1 (⟨h0.next + 1, h0.mem⟩ : Heap V) = .ok .dangling ∧
    to_status (to_ptr v h0).1 (⟨h0.next + 1, h0.mem⟩ : Heap V)
      = .ok (.dangling, ⟨h0.next + 1, h0.mem⟩) ∧
    to_status_use (0 : Point) (⟨h0.next + 1, h0.mem⟩ : Heap V)
      = .error "point is null or not" := by
  have hp : h0.next ≠ 0 := Nat.pos_iff_ne_zero.mp hpos
  have hfind : h0.mem.find? (fun q => q.1 == h0.next) = none := by
    simpa [heapLookup, Option.map_eq_none'] using hfresh
  refine ⟨by simpa [to_ptr] using hp, ?_, ?_, ?_, ?_, ?_⟩
  · simp [to_ptr, to_status_use, check_ptr, hp, heapLookup]
  · simp only [to_ptr, Heap.write, List.map_cons, beq_self_eq_true, if_pos]
    rw [map_overwrite_of_find?_none w h0.next h0.mem hfind]
    simp only [to_status, check_ptr, hp, if_neg, heapLookup, List.find?_cons,
               beq_self_eq_true, Option.map_some']
    simp [Heap.free, List.filter_cons, filter_ne_of_find?_none h0.next h0.mem hfind, hp]
  · simp [to_ptr, to_status_use, check_ptr, hp, heapLookup, hfind]
  · simp [to_ptr, to_status, check_ptr, hp, heapLookup, hfind]
  · simp [to_status_use, check_ptr, throw]

/-- C4 amended witness: `box(42)` at the empty heap, overwrite with `7`. -/
theorem opaque_pointer_round_trip_amended_witness :
    (to_ptr (42 : Nat) (Heap.empty Nat)).1 ≠ 0 ∧
    to_status_use (to_ptr (42 : Nat) (Heap.empty Nat)).1 (to_ptr (42 : Nat) (Heap.empty Nat)).2
      = .ok (.found 42) ∧
    to_status (to_ptr (42 : Nat) (Heap.empty Nat)).1
        ((to_ptr (42 : Nat) (Heap.empty Nat)).2.write (to_ptr (42 : Nat) (Heap.empty Nat)).1 7)
      = .ok (.found 7, ⟨(Heap.empty Nat).next + 1, (Heap.empty Nat).mem⟩) ∧
    to_status_use (to_ptr (42 : Nat) (Heap.empty Nat)).1
        (⟨(Heap.empty Nat).next + 1, (Heap.empty Nat).mem⟩ : Heap Nat) = .ok .dangling ∧
    to_status (to_ptr (42 : Nat) (Heap.empty Nat)).1
        (⟨(Heap.empty Nat).next + 1, (Heap.empty Nat).mem⟩ : Heap Nat)
      = .ok (.dangling, ⟨(Heap.empty Nat).next + 1, (Heap.empty Nat).mem⟩) ∧
    to_status_use (0 : Point) (⟨(Heap.empty Nat).next + 1, (Heap.empty Nat).mem⟩ : Heap Nat)
      = .error "point is null or not" :=
  opaque_pointer_round_trip_amended 42 7 (Heap.empty Nat) (by decide) rfl

/-! Per-kind helper lemmas for the idempotence and failure-safety of `init`. -/

theorem spField_init_idem (f : SpField) (env : JNIEnv) (cls : JClass) (s : Caches)
    (hok : (SpField.init f env cls s).1 = .ok ()) :
    SpField.init f env cls (SpField.init f env cls s).2.1
      = (.ok (), (SpField.init f env cls s).2.1, []) ∧
    (containsKey s.fieldCache f.cache = true → (SpField.init f env cls s).2.2 = []) ∧
    (containsKey s.fieldCache f.cache = false →
      (SpField.init f env cls s).2.2.length = 1) := by
  cases hc : containsKey s.fieldCache f.cache with
  | true => simp [SpField.init, hc]
  | false =>
    rcases hn : f.name with _ | name
    · simp [SpField.init, hc, hn, throw] at hok
    · rcases hr : f.ret with _ | rt
      · simp [SpField.init, hc, hn, hr, throw] at hok
      · rcases he : env.getFieldId cls name rt with _ | raw
        · simp [SpField.init, hc, hn, hr, he, throw] at hok
        · simp [SpField.init, hc, hn, hr, he, containsKey_cacheInsert]

theorem spStaticField_init_idem (f : SpStaticField) (env : JNIEnv) (cls : JClass)
    (s : Caches) (hok : (SpStaticField.init f env cls s).1 = .ok ()) :
    SpStaticField.init f env cls (SpStaticField.init f env cls s).2.1
      = (.ok (), (SpStaticField.init f env cls s).2.1, []) ∧
    (containsKey s.staticFieldCache f.cache = true →
      (SpStaticField.init f env cls s).2.2 = []) ∧
    (containsKey s.staticFieldCache f.cache = false →
      (SpStaticField.init f env cls s).2.2.length = 1) := by
  cases hc : containsKey s.staticFieldCache f.cache with
  | true => simp [SpStaticField.init, hc]
  | false =>
    rcases hn : f.name with _ | name
    · simp [SpStaticField.init, hc, hn, throw] at hok
    · rcases hr : f.ret with _ | rt
      · simp [SpStaticField.init, hc, hn, hr, throw] at hok
      · rcases he : env.getStaticFieldId cls name rt with _ | raw
        · simp [SpStaticField.init, hc, hn, hr, he, throw] at hok
        · simp [SpStaticField.init, hc, hn, hr, he, containsKey_cacheInsert]

theorem spMethod_init_idem (m : SpMethod) (env : JNIEnv) (cls : JClass) (s : Caches)
    (hok : (SpMethod.init m env cls s).1 = .ok ()) :
    SpMethod.init m env cls (SpMethod.init m env cls s).2.1
      = (.ok (), (SpMethod.init m env cls s).2.1, []) ∧
    (containsKey s.methodCache m.cache = true → (SpMethod.init m env cls s).2.2 = []) ∧
    (containsKey s.methodCache m.cache = false →
      (SpMethod.init m env cls s).2.2.length = 1) := by
  cases hc : containsKey s.methodCache m.cache with
  | true => simp [SpMethod.init, hc]
  | false =>
    rcases hn : m.name with _ | name
    · simp [SpMethod.init, hc, hn, throw] at hok
    · rcases hr : m.sig with _ | sg
      · simp [SpMethod.init, hc, hn, hr, throw] at hok
      · rcases he : env.getMethodId cls name sg with _ | raw
        · simp [SpMethod.init, hc, hn, hr, he, throw] at hok
        · simp [SpMethod.init, hc, hn, hr, he, containsKey_cacheInsert]

theorem spStaticMethod_init_idem (m : SpStaticMethod) (env : JNIEnv) (cls : JClass)
    (s : Caches) (hok : (SpStaticMethod.init m env cls s).1 = .ok ()) :
    SpStaticMethod.init m env cls (SpStaticMethod.init m env cls s).2.1
      = (.ok (), (SpStaticMethod.init m env cls s).2.1, []) ∧
    (containsKey s.staticMethodCache m.cache = true →
      (SpStaticMethod.init m env cls s).2.2 = []) ∧
    (containsKey s.staticMethodCache m.cache = false →
      (SpStaticMethod.init m env cls s).2.2.length = 1) := by
  cases hc : containsKey s.staticMethodCache m.cache with
  | true => simp [SpStaticMethod.init, hc]
  | false =>
    rcases hn : m.name with _ | name
    · simp [SpStaticMethod.init, hc, hn, throw] at hok
    · rcases hr : m.sig with _ | sg
      · simp [SpStaticMethod.init, hc, hn, hr, throw] at hok
      · rcases he : env.getStaticMethodId cls name sg with _ | raw
        · simp [SpStaticMethod.init, hc, hn, hr, he, throw] at hok
        · simp [SpStaticMethod.init, hc, hn, hr, he, containsKey_cacheInsert]

theorem spClass_init_idem (c : SpClass) (env : JNIEnv) (s : Caches)
    (hok : (SpClass.init c env s).1 = .ok ()) :
    SpClass.init (SpClass.init c env s).2.1 env (SpClass.init c env s).2.2.1
      = (.ok (), (SpClass.init c env s).2.1, (SpClass.init c env s).2.2.1, []) ∧
    (containsKey s.classCache c.cache = true →
      ((SpClass.init c env s).2.2.2).countP isResolutionOp = 0) ∧
    (containsKey s.classCache c.cache = false → c.jni_class_ref = none →
      ((SpClass.init c env s).2.2.2).countP isResolutionOp = 1) := by
  rcases hr : c.jni_class_ref with _ | ref
  · rcases hp : c.class_full_path with _ | path
    · by_cases hneg : c.cache < 0
      · simp [SpClass.init, hr, hp, hneg, throw] at hok
      · rcases hg : cacheGet s.classCache c.cache with _ | g
        · simp [SpClass.init, hr, hp, hneg, hg, throw] at hok
        · simp [SpClass.init, hr, hp, hneg, hg, containsKey]
    · rcases hg : cacheGet s.classCache c.cache with _ | g
      · rcases hf : env.findClass path with _ | cls
        · simp [SpClass.init, hr, hp, hg, hf, throw] at hok
        · rcases hn : env.newGlobalRef cls with _ | raw
          · simp [SpClass.init, hr, hp, hg, hf, hn, throw] at hok
          · simp [SpClass.init, hr, hp, hg, hf, hn, containsKey, isResolutionOp]
      · simp [SpClass.init, hr, hp, hg, containsKey]
  · simp [SpClass.init, hr]

theorem spField_init_error_state (f : SpField) (env : JNIEnv) (cls : JClass) (s : Caches)
    (e : String) (herr : (SpField.init f env cls s).1 = .error e) :
    (SpField.init f env cls s).2.1 = s := by
  cases hc : containsKey s.fieldCache f.cache with
  | true => simp [SpField.init, hc] at herr
  | false =>
    rcases hn : f.name with _ | name
    · simp [SpField.init, hc, hn, throw]
    · rcases hr : f.ret with _ | rt
      · simp [SpField.init, hc, hn, hr, throw]
      · rcases he : env.getFieldId cls name rt with _ | raw
        · simp [SpField.init, hc, hn, hr, he, throw]
        · simp [SpField.init, hc, hn, hr, he] at herr

theorem spStaticField_init_error_state (f : SpStaticField) (env : JNIEnv) (cls : JClass)
    (s : Caches) (e : String) (herr : (SpStaticField.init f env cls s).1 = .error e) :
    (SpStaticField.init f env cls s).2.1 = s := by
  cases hc : containsKey s.staticFieldCache f.cache with
  | true => simp [SpStaticField.init, hc] at herr
  | false =>
    rcases hn : f.name with _ | name
    · simp [SpStaticField.init, hc, hn, throw]
    · rcases hr : f.ret with _ | rt
      · simp [SpStaticField.init, hc, hn, hr, throw]
      · rcases he : env.getStaticFieldId cls name rt with _ | raw
        · simp [SpStaticField.init, hc, hn, hr, he, throw]
        · simp [SpStaticField.init, hc, hn, hr, he] at herr

theorem spMethod_init_error_state (m : SpMethod) (env : JNIEnv) (cls : JClass)
    (s : Caches) (e : String) (herr : (SpMethod.init m env cls s).1 = .error e) :
    (SpMethod.init m env cls s).2.1 = s := by
  cases hc : containsKey s.methodCache m.cache with
  | true => simp [SpMethod.init, hc] at herr
  | false =>
    rcases hn : m.name with _ | name
    · simp [SpMethod.init, hc, hn, throw]
    · rcases hr : m.sig with _ | sg
      · simp [SpMethod.init, hc, hn, hr, throw]
      · rcases he : env.getMethodId cls name sg with _ | raw
        · simp [SpMethod.init, hc, hn, hr, he, throw]
        · simp [SpMethod.init, hc, hn, hr, he] at herr

theorem spStaticMethod_init_error_state (m : SpStaticMethod) (env : JNIEnv) (cls : JClass)
    (s : Caches) (e : String) (herr : (SpStaticMethod.init m env cls s).1 = .error e) :
    (SpStaticMethod.init m env cls s).2.1 = s := by
  cases hc : containsKey s.staticMethodCache m.cache with
  | true => simp [SpStaticMethod.init, hc] at herr
  | false =>
    rcases hn : m.name with _ | name
    · simp [SpStaticMethod.init, hc, hn, throw]
    · rcases hr : m.sig with _ | sg
      · simp [SpStaticMethod.init, hc, hn, hr, throw]
      · rcases he : env.getStaticMethodId cls name sg with _ | raw
        · simp [SpStaticMethod.init, hc, hn, hr, he, throw]
        · simp [SpStaticMethod.init, hc, hn, hr, he] at herr

theorem spClass_init_error_state (c : SpClass) (env : JNIEnv) (s : Caches) (e : String)
    (herr : (SpClass.init c env s).1 = .error e) :
    (SpClass.init c env s).2.2.1 = s := by
  rcases hr : c.jni_class_ref with _ | ref
  · rcases hp : c.class_full_path with _ | path
    · by_cases hneg : c.cache < 0
      · simp [SpClass.init, hr, hp, hneg, throw]
      · rcases hg : cacheGet s.classCache c.cache with _ | g
        · simp [SpClass.init, hr, hp, hneg, hg, throw]
        · simp [SpClass.init, hr, hp, hneg, hg] at herr
    · rcases hg : cacheGet s.classCache c.cache with _ | g
      · rcases hf : env.findClass path with _ | cls
        · simp [SpClass.init, hr, hp, hg, hf, throw]
        · rcases hn : env.newGlobalRef cls with _ | raw
          · simp [SpClass.init, hr, hp, hg, hf, hn, throw]
          · simp [SpClass.init, hr, hp, hg, hf, hn] at herr
      · simp [SpClass.init, hr, hp, hg] at herr
  · simp [SpClass.init, hr] at herr

/-- C6: for each of the five resolver kinds, after a successful `init`, a
second `init` with the same key succeeds immediately with zero host calls and
leaves the caches unchanged; the first `init` made exactly one host resolution
call if the key was not yet cached, and zero if it was already cached.  For
the class resolver, resolution calls are counted via `isResolutionOp`: the
fresh path performs the single `find_class` resolution (plus the
`new_global_ref` promotion, which is not a resolution). -/
theorem init_twice_single_host_call (env : JNIEnv) (cls : JClass) (s : Caches)
    (f : SpField) (sf : SpStaticField) (m : SpMethod) (sm : SpStaticMethod)
    (c : SpClass) :
    ((SpField.init f env cls s).1 = .ok () →
      SpField.init f env cls (SpField.init f env cls s).2.1
        = (.ok (), (SpField.init f env cls s).2.1, []) ∧
      (containsKey s.fieldCache f.cache = true → (SpField.init f env cls s).2.2 = []) ∧
      (containsKey s.fieldCache f.cache = false →
        (SpField.init f env cls s).2.2.length = 1)) ∧
    ((SpStaticField.init sf env cls s).1 = .ok () →
      SpStaticField.init sf env cls (SpStaticField.init sf env cls s).2.1
        = (.ok (), (SpStaticField.init sf env cls s).2.1, []) ∧
      (containsKey s.staticFieldCache sf.cache = true →
        (SpStaticField.init sf env cls s).2.2 = []) ∧
      (containsKey s.staticFieldCache sf.cache = false →
        (SpStaticField.init sf env cls s).2.2.length = 1)) ∧
    ((SpMethod.init m env cls s).1 = .ok () →
      SpMethod.init m env cls (SpMethod.init m env cls s).2.1
        = (.ok (), (SpMethod.init m env cls s).2.1, []) ∧
      (containsKey s.methodCache m.cache = true → (SpMethod.init m env cls s).2.2 = []) ∧
      (containsKey s.methodCache m.cache = false →
        (SpMethod.init m env cls s).2.2.length = 1)) ∧
    ((SpStaticMethod.init sm env cls s).1 = .ok () →
      SpStaticMethod.init sm env cls (SpStaticMethod.init sm env cls s).2.1
        = (.ok (), (SpStaticMethod.init sm env cls s).2.1, []) ∧
      (containsKey s.staticMethodCache sm.cache = true →
        (SpStaticMethod.init sm env cls s).2.2 = []) ∧
      (containsKey s.staticMethodCache sm.cache = false →
        (SpStaticMethod.init sm env cls s).2.2.length = 1)) ∧
    ((SpClass.init c env s).1 = .ok () →
      SpClass.init (SpClass.init c env s).2.1 env (SpClass.init c env s).2.2.1
        = (.ok (), (SpClass.init c env s).2.1, (SpClass.init c env s).2.2.1, []) ∧
      (containsKey s.classCache c.cache = true →
        ((SpClass.init c env s).2.2.2).countP isResolutionOp = 0) ∧
      (containsKey s.classCache c.cache = false → c.jni_class_ref = none →
        ((SpClass.init c env s).2.2.2).countP isResolutionOp = 1)) :=
  ⟨fun hok => spField_init_idem f env cls s hok,
   fun hok => spStaticField_init_idem sf env cls s hok,
   fun hok => spMethod_init_idem m env cls s hok,
   fun hok => spStaticMethod_init_idem sm env cls s hok,
   fun hok => spClass_init_idem c env s hok⟩

/-- C6 witness: key `0` from the empty caches against a resolving host; the
first `init` makes exactly one host call, the second none. -/
theorem init_twice_single_host_call_witness :
    (SpField.init (SpField.new 0 "x" SpType.Int) envResolve 1
        (SpField.init (SpField.new 0 "x" SpType.Int) envResolve 1 Caches.empty).2.1
      = (.ok (), (SpField.init (SpField.new 0 "x" SpType.Int) envResolve 1
          Caches.empty).2.1, [])) ∧
    (SpStaticField.init (SpStaticField.new 0 "x" SpType.Int) envResolve 1
        (SpStaticField.init (SpStaticField.new 0 "x" SpType.Int) envResolve 1
          Caches.empty).2.1
      = (.ok (), (SpStaticField.init (SpStaticField.new 0 "x" SpType.Int) envResolve 1
          Caches.empty).2.1, [])) ∧
    (SpMethod.init (SpMethod.new 0 "x" SpType.Void []) envResolve 1
        (SpMethod.init (SpMethod.new 0 "x" SpType.Void []) envResolve 1 Caches.empty).2.1
      = (.ok (), (SpMethod.init (SpMethod.new 0 "x" SpType.Void []) envResolve 1
          Caches.empty).2.1, [])) ∧
    (SpStaticMethod.init (SpStaticMethod.new 0 "x" SpType.Void []) envResolve 1
        (SpStaticMethod.init (SpStaticMethod.new 0 "x" SpType.Void []) envResolve 1
          Caches.empty).2.1
      = (.ok (), (SpStaticMethod.init (SpStaticMethod.new 0 "x" SpType.Void []) envResolve 1
          Caches.empty).2.1, [])) ∧
    (SpClass.init (SpClass.init (SpClass.new 0 "a.A") envResolve Caches.empty).2.1
        envResolve (SpClass.init (SpClass.new 0 "a.A") envResolve Caches.empty).2.2.1
      = (.ok (), (SpClass.init (SpClass.new 0 "a.A") envResolve Caches.empty).2.1,
         (SpClass.init (SpClass.new 0 "a.A") envResolve Caches.empty).2.2.1, [])) ∧
    (SpField.init (SpField.new 0 "x" SpType.Int) envResolve 1 Caches.empty).2.2.length
      = 1 ∧
    ((SpClass.init (SpClass.new 0 "a.A") envResolve Caches.empty).2.2.2).countP
      isResolutionOp = 1 := by
  have h := init_twice_single_host_call envResolve 1 Caches.empty
    (SpField.new 0 "x" SpType.Int) (SpStaticField.new 0 "x" SpType.Int)
    (SpMethod.new 0 "x" SpType.Void []) (SpStaticMethod.new 0 "x" SpType.Void [])
    (SpClass.new 0 "a.A")
  exact ⟨(h.1 rfl).1, (h.2.1 rfl).1, (h.2.2.1 rfl).1, (h.2.2.2.1 rfl).1,
         (h.2.2.2.2 rfl).1, (h.1 rfl).2.2 rfl, (h.2.2.2.2 rfl).2.2 rfl rfl⟩

/-- C8: whenever `init` fails — for any of the five resolver kinds — the caches
are left exactly as they were: a failed resolution inserts nothing. -/
theorem failed_init_leaves_cache_unchanged (env : JNIEnv) (cls : JClass) (s : Caches)
    (f : SpField) (sf : SpStaticField) (m : SpMethod) (sm : SpStaticMethod)
    (c : SpClass) (e : String) :
    ((SpField.init f env cls s).1 = .error e → (SpField.init f env cls s).2.1 = s) ∧
    ((SpStaticField.init sf env cls s).1 = .error e →
      (SpStaticField.init sf env cls s).2.1 = s) ∧
    ((SpMethod.init m env cls s).1 = .error e → (SpMethod.init m env cls s).2.1 = s) ∧
    ((SpStaticMethod.init sm env cls s).1 = .error e →
      (SpStaticMethod.init sm env cls s).2.1 = s) ∧
    ((SpClass.init c env s).1 = .error e → (SpClass.init c env s).2.2.1 = s) :=
  ⟨fun herr => spField_init_error_state f env cls s e herr,
   fun herr => spStaticField_init_error_state sf env cls s e herr,
   fun herr => spMethod_init_error_state m env cls s e herr,
   fun herr => spStaticMethod_init_error_state sm env cls s e herr,
   fun herr => spClass_init_error_state c env s e herr⟩

/-- C8 witness: against a host where every lookup fails, each of the five
resolver kinds fails `init` and leaves the empty caches empty. -/
theorem failed_init_leaves_cache_unchanged_witness :
    (SpField.init (SpField.new 0 "x" SpType.Int) envFail 1 Caches.empty).2.1
      = Caches.empty ∧
    (SpStaticField.init (SpStaticField.new 0 "x" SpType.Int) envFail 1 Caches.empty).2.1
      = Caches.empty ∧
    (SpMethod.init (SpMethod.new 0 "x" SpType.Void []) envFail 1 Caches.empty).2.1
      = Caches.empty ∧
    (SpStaticMethod.init (SpStaticMethod.new 0 "x" SpType.Void []) envFail 1
        Caches.empty).2.1 = Caches.empty ∧
    (SpClass.init (SpClass.new 0 "a.A") envFail Caches.empty).2.2.1 = Caches.empty := by
  have h := failed_init_leaves_cache_unchanged envFail 1 Caches.empty
    (SpField.new 0 "x" SpType.Int) (SpStaticField.new 0 "x" SpType.Int)
    (SpMethod.new 0 "x" SpType.Void []) (SpStaticMethod.new 0 "x" SpType.Void [])
    (SpClass.new 0 "a.A") "host error"
  exact ⟨h.1 rfl, h.2.1 rfl, h.2.2.1 rfl, h.2.2.2.1 rfl, h.2.2.2.2 rfl⟩

end SpUtil
